import Mathlib

/-!
Verification of the safety-and-alerting core of the assistive navigation
device (repository `proyecto`).

The definitions below are a shallow embedding of the Python source:

* `SystemState`, `StateManager`, `transition_to`  — `src/core/state_manager.py`
* `thermalPolicy`                                 — `main.py`, `thermal_monitor_loop`,
                                                    thresholds from `config/pinout.py`
* `TofState`, `detect_hole`, `detect_air_obstacle`— `src/drivers/tof.py`
* `Detection`, `analyze_detections`, `trigger_alert`
                                                  — `src/core/navigation_system.py`
                                                    and `src/core/object_inference.py`
* `announceStep`, `sessionAnnouncements`          — `src/core/run_tracking_state.py`

Machine floats that only ever carry sensor values and timestamps are modelled
as rationals; Python lists as Lean lists; Python sets of track ids as finsets.
-/

namespace Proyecto

/-! ## State machine (`src/core/state_manager.py`) -/

/-- The five lifecycle states of the device (`class SystemState(Enum)`). -/
inductive SystemState where
  | booting
  | running
  | throttling
  | error
  | shutdown
deriving DecidableEq, Repr, Fintype

open SystemState

/-- One entry of `StateManager.transition_history`:
`{'from': old_state, 'to': new_state, 'reason': reason, 'timestamp': time.time()}`. -/
structure TransitionRecord where
  src : SystemState
  dst : SystemState
  reason : String
  timestamp : ℚ
deriving DecidableEq, Repr

/-- A registered entry/exit callback is modelled by its observable behaviour:
`true` if it returns normally, `false` if it raises (the manager catches the
exception either way).  `none` means no callback is registered for the state. -/
abbrev CallbackMap := SystemState → Option Bool

/-- The mutable fields of `StateManager` together with its registered
callbacks.  `current_state` starts as `BOOTING`, `previous_state` as `None`,
`transition_history` empty. -/
structure StateManager where
  current_state : SystemState
  previous_state : Option SystemState
  transition_history : List TransitionRecord
  entry_callbacks : CallbackMap
  exit_callbacks : CallbackMap

/-- Source: `StateManager._is_valid_transition`: the `valid_transitions` table. -/
def valid_transitions : SystemState → List SystemState
  | booting => [running, error]
  | running => [throttling, error, shutdown]
  | throttling => [running, error]
  | error => [booting]
  | shutdown => []

/-- Source: `StateManager._is_valid_transition(from_state, to_state)`. -/
def is_valid_transition (from_state to_state : SystemState) : Bool :=
  to_state ∈ valid_transitions from_state

/-- Observable side effects performed by `transition_to`, in program order:
running the exit callback of the old state (with its outcome), writing the
current/previous state pair, appending to the history, and running the entry
callback of the new state. -/
inductive SMEvent where
  | exitCb (s : SystemState) (ok : Bool)
  | stateSet (old new : SystemState)
  | histAppend (r : TransitionRecord)
  | entryCb (s : SystemState) (ok : Bool)
deriving DecidableEq, Repr

/-- Source: `StateManager.transition_to(new_state, reason)`.  `now` stands for the
`time.time()` value recorded in the history entry.  Returns the boolean result,
the state manager after the call, and the ordered list of side effects the
call performed.  Mirrors the Python body: self-transitions return `True`
without touching anything; invalid transitions return `False` without touching
anything; otherwise exit callback, state swap, history append and entry
callback happen in that order, callback exceptions being caught. -/
def transition_to (sm : StateManager) (new_state : SystemState) (reason : String)
    (now : ℚ) : Bool × StateManager × List SMEvent :=
  if new_state = sm.current_state then
    (true, sm, [])
  else
    let old_state := sm.current_state
    if ¬ is_valid_transition old_state new_state then
      (false, sm, [])
    else
      let exitEvents : List SMEvent :=
        match sm.exit_callbacks old_state with
        | some ok => [.exitCb old_state ok]
        | none => []
      let rec0 : TransitionRecord :=
        { src := old_state, dst := new_state, reason := reason, timestamp := now }
      let sm' : StateManager :=
        { sm with
          previous_state := some old_state
          current_state := new_state
          transition_history := sm.transition_history ++ [rec0] }
      let entryEvents : List SMEvent :=
        match sm.entry_callbacks new_state with
        | some ok => [.entryCb new_state ok]
        | none => []
      (true, sm',
        exitEvents ++ [.stateSet old_state new_state, .histAppend rec0] ++ entryEvents)

/-- The allowed-transition table exactly as the claim enumerates it:
Booting→Running/Error, Running→Throttling/Error/Shutdown, Throttling→Running/Error,
Error→Booting, Shutdown→nothing. -/
def allowedPairs : List (SystemState × SystemState) :=
  [(booting, running), (booting, error),
   (running, throttling), (running, error), (running, shutdown),
   (throttling, running), (throttling, error),
   (error, booting)]

/-! ## Thermal policy (`main.py`, `thermal_monitor_loop`) -/

/-- Source: `pinout.TEMP_NORMAL`. -/
def TEMP_NORMAL : ℚ := 60

/-- Source: `pinout.TEMP_THROTTLE`. -/
def TEMP_THROTTLE : ℚ := 80

/-- Source: `pinout.TEMP_CRITICAL`. -/
def TEMP_CRITICAL : ℚ := 95

/-- The decision taken by one iteration of `AssistiveDevice.thermal_monitor_loop`
as a function of the sampled temperature and the current state: the state the
loop asks `transition_to` for, or `none` when the loop does nothing.
Mirrors the `if temp >= TEMP_CRITICAL / elif temp >= TEMP_THROTTLE /
elif temp < TEMP_NORMAL` chain. -/
def thermalPolicy (temp : ℚ) (current : SystemState) : Option SystemState :=
  if TEMP_CRITICAL ≤ temp then
    some error
  else if TEMP_THROTTLE ≤ temp then
    if current = running then some throttling else none
  else if temp < TEMP_NORMAL then
    if current = throttling then some running else none
  else
    none

/-! ## ToF depth detector (`src/drivers/tof.py`) -/

/-- An 8×8 depth matrix of millimeter distances, as returned by
`TofDriver.get_matrix` (the VL53L5CX reports unsigned distances; `0` means
no return / invalid). -/
abbrev Mat8 := Fin 8 → Fin 8 → ℕ

/-- The persistent state of `TofDriver` that the detection methods can read or
write: the `baseline_floor` attribute (`None` before first initialisation in
the `detect_hole` lazy-init branch). -/
structure TofState where
  baseline_floor : Option ℚ
deriving DecidableEq

/-- The cells of rows 0 and 1 in row-major order
(`for row in matrix[0:2] for dist in row`). -/
def topTwoRows (m : Mat8) : List ℕ :=
  ((List.finRange 8).map (m 0)) ++ ((List.finRange 8).map (m 1))

/-- Source: `valid_readings = [dist for row in matrix[0:2] for dist in row if dist > 0]`. -/
def validReadings (m : Mat8) : List ℕ :=
  (topTwoRows m).filter (fun d => 0 < d)

/-- Mean of a list of readings, as the Python float division `sum(l)/len(l)`. -/
def meanOf (l : List ℕ) : ℚ :=
  ((l.map (fun d => (d : ℚ))).sum) / (l.length : ℚ)

/-- Source: `4000 if v == 0 else v`: zeros are treated as infinite for the per-zone
averages. -/
def sentinel (v : ℕ) : ℕ :=
  if v = 0 then 4000 else v

/-- Source: `left_pixels = list(matrix[0][0:3]) + list(matrix[1][0:3])`, with zeros
replaced by the 4000 mm sentinel. -/
def leftPixels (m : Mat8) : List ℕ :=
  ([m 0 0, m 0 1, m 0 2] ++ [m 1 0, m 1 1, m 1 2]).map sentinel

/-- Source: `center_pixels = list(matrix[0][3:5]) + list(matrix[1][3:5])`, with zeros
replaced by the 4000 mm sentinel. -/
def centerPixels (m : Mat8) : List ℕ :=
  ([m 0 3, m 0 4] ++ [m 1 3, m 1 4]).map sentinel

/-- Source: `right_pixels = list(matrix[0][5:8]) + list(matrix[1][5:8])`, with zeros
replaced by the 4000 mm sentinel. -/
def rightPixels (m : Mat8) : List ℕ :=
  ([m 0 5, m 0 6, m 0 7] ++ [m 1 5, m 1 6, m 1 7]).map sentinel

/-- The running-maximum scan behind Python's `max(d, key=d.get)`: a later
entry replaces the current best only when strictly greater, so the first
maximal key wins. -/
def pyMaxKeyGo (k : String) (v : ℚ) : List (String × ℚ) → String
  | [] => k
  | (k2, v2) :: rest =>
      if v < v2 then pyMaxKeyGo k2 v2 rest else pyMaxKeyGo k v rest

/-- Python's `max(d, key=d.get)` over an association list in iteration order:
the first key whose value is maximal. -/
def pyMaxKey : List (String × ℚ) → Option String
  | [] => none
  | (k, v) :: rest => some (pyMaxKeyGo k v rest)

/-- The claim's choice of reported zone once a drop is detected: among the
thirds whose average exceeds the danger threshold, the one with the highest
average, ties broken left-to-right; `none` when no third exceeds the
threshold. -/
def claimHoleZone (aL aC aR thr : ℚ) : Option String :=
  if thr < aL ∧ (aC ≤ aL ∨ ¬ thr < aC) ∧ (aR ≤ aL ∨ ¬ thr < aR) then
    some "izquierda"
  else if thr < aC ∧ (aR ≤ aC ∨ ¬ thr < aR) then some "medio"
  else if thr < aR then some "derecha"
  else none

/-- Source: `TofDriver.detect_hole(matrix)`: analyses rows 0–1 for sudden drops.
Returns the `(bool, position)` verdict of the Python method together with the
driver state after the call (the method writes `self.baseline_floor` only in
its lazy-initialisation branch). -/
def detect_hole (st : TofState) (m : Mat8) : (Bool × String) × TofState :=
  let valid := validReadings m
  if valid = [] then
    ((true, "frente completo"), st)
  else
    let current_distance := meanOf valid
    match st.baseline_floor with
    | none => ((false, ""), { baseline_floor := some current_distance })
    | some baseline =>
      let difference := current_distance - baseline
      if 300 < difference then
        let avg_left := meanOf (leftPixels m)
        let avg_center := meanOf (centerPixels m)
        let avg_right := meanOf (rightPixels m)
        let danger_threshold := baseline + 300
        if danger_threshold < avg_left ∧ danger_threshold < avg_center ∧
            danger_threshold < avg_right then
          ((true, "frente completo (caída total)"), st)
        else
          let zones : List (String × ℚ) :=
            [("izquierda", avg_left), ("medio", avg_center), ("derecha", avg_right)]
          let dangerous_zones := zones.filter (fun z => danger_threshold < z.2)
          match pyMaxKey dangerous_zones with
          | some position => ((true, position), st)
          | none => ((false, ""), st)
      else
        ((false, ""), st)

/-- The cell scan order of `detect_air_obstacle`:
`for row in range(3): for col in range(8)`. -/
def airScanCells : List (Fin 8 × Fin 8) :=
  ([0, 1, 2] : List (Fin 8)).flatMap (fun r => (List.finRange 8).map (fun c => (r, c)))

/-- One step of the flag-setting loop of `detect_air_obstacle`: the triple is
`(left_danger, center_danger, right_danger)`. -/
def airFlagStep (m : Mat8) (f : Bool × Bool × Bool) (rc : Fin 8 × Fin 8) :
    Bool × Bool × Bool :=
  let distance := m rc.1 rc.2
  if 0 < distance ∧ distance < 1500 then
    if rc.2.val ≤ 2 then (true, f.2.1, f.2.2)
    else if 5 ≤ rc.2.val then (f.1, f.2.1, true)
    else (f.1, true, f.2.2)
  else f

/-- The `(left_danger, center_danger, right_danger)` flags computed by the
scan loop of `detect_air_obstacle`. -/
def airFlags (m : Mat8) : Bool × Bool × Bool :=
  airScanCells.foldl (airFlagStep m) (false, false, false)

/-- Source: `TofDriver.detect_air_obstacle(matrix)`: scans rows 0–2 and combines the
three zone flags through the if/elif chain of the Python method.  The method
reads and writes no driver state, so it takes none. -/
def detect_air_obstacle (m : Mat8) : Bool × String :=
  let f := airFlags m
  let left_danger := f.1
  let center_danger := f.2.1
  let right_danger := f.2.2
  if ¬ (left_danger ∨ center_danger ∨ right_danger) then (false, "")
  else if left_danger ∧ center_danger ∧ right_danger then (true, "pared")
  else if left_danger ∧ right_danger ∧ ¬ center_danger then (true, "ambos lados")
  else if left_danger ∧ center_danger then (true, "frente e izquierda")
  else if right_danger ∧ center_danger then (true, "frente y derecha")
  else if center_danger then (true, "frente")
  else if left_danger then (true, "izquierda")
  else if right_danger then (true, "derecha")
  else (false, "")

/-- Stateful view of `detect_air_obstacle` as a method call on the driver:
the body never assigns to `self`, so the state it returns is the receiver's. -/
def detect_air_obstacleS (st : TofState) (m : Mat8) : (Bool × String) × TofState :=
  (detect_air_obstacle m, st)

/-! ## Detections and navigation alerts
(`src/core/object_inference.py`, `src/core/navigation_system.py`) -/

/-- Source: `class Detection` of `object_inference.py`.  Bounding-box coordinates are
pixel coordinates (non-negative integers). -/
structure Detection where
  class_id : ℕ
  class_name : String
  confidence : ℚ
  bbox : ℕ × ℕ × ℕ × ℕ
deriving DecidableEq

/-- Source: `Detection.get_center`: `((x1 + x2) // 2, (y1 + y2) // 2)`. -/
def Detection.get_center (d : Detection) : ℕ × ℕ :=
  ((d.bbox.1 + d.bbox.2.2.1) / 2, (d.bbox.2.1 + d.bbox.2.2.2) / 2)

/-- Source: `Detection.is_in_aerial_zone(zone_y_max)`: the vertical bbox center is
strictly above `zone_y_max`. -/
def Detection.is_in_aerial_zone (d : Detection) (zone_y_max : ℕ) : Bool :=
  (d.bbox.2.1 + d.bbox.2.2.2) / 2 < zone_y_max

/-- One element of the `aerial_threats` list built by
`NavigationSystem.analyze_detections`. -/
structure Threat where
  object : String
  confidence : ℚ
  priority : ℕ
  center : ℕ × ℕ
deriving DecidableEq, Inhabited

/-- The result dictionary of `analyze_detections` when threats were found. -/
structure Assessment where
  count : ℕ
  highest_priority : Threat
  all_threats : List Threat
deriving DecidableEq

/-- The configuration of `NavigationSystem` used by `analyze_detections`:
the `AERIAL_OBSTACLES` class→priority table (a lookup) and
`AERIAL_ZONE_Y_MAX`. -/
structure NavConfig where
  aerial_obstacles : String → Option ℕ
  aerial_zone_y_max : ℕ

/-- The filtering loop of `analyze_detections`: skip detections whose class is
not in the priority table, skip detections outside the aerial zone, and turn
the rest into threat records in input order. -/
def collectThreats (cfg : NavConfig) : List Detection → List Threat
  | [] => []
  | d :: ds =>
    match cfg.aerial_obstacles d.class_name with
    | none => collectThreats cfg ds
    | some priority =>
      if d.is_in_aerial_zone cfg.aerial_zone_y_max then
        { object := d.class_name, confidence := d.confidence,
          priority := priority, center := d.get_center } :: collectThreats cfg ds
      else
        collectThreats cfg ds

/-- The key order used by `aerial_threats.sort(key=lambda x: x['priority'])`. -/
def threatLE (a b : Threat) : Prop := a.priority ≤ b.priority

instance : DecidableRel threatLE := fun a b => Nat.decLe a.priority b.priority

/-- Python's `list.sort` is stable; a stable ascending sort by priority is
insertion sort with `≤` on the key. -/
def sortThreats (l : List Threat) : List Threat :=
  l.insertionSort threatLE

/-- Source: `NavigationSystem.analyze_detections(detections)`: `None` when no aerial
threat survives the filter, otherwise the assessment built from the
priority-sorted list. -/
def analyze_detections (cfg : NavConfig) (detections : List Detection) :
    Option Assessment :=
  let aerial_threats := collectThreats cfg detections
  if aerial_threats = [] then
    none
  else
    let sorted := sortThreats aerial_threats
    some { count := aerial_threats.length
           highest_priority := sorted.headI
           all_threats := sorted }

/-- The translation table of `trigger_alert` (`translations.get` falls back to
the original label). -/
def translateLabel (label : String) : String :=
  if label = "person" then "persona"
  else if label = "bicycle" then "bicicleta"
  else if label = "car" then "automóvil"
  else if label = "motorcycle" then "motocicleta"
  else if label = "bus" then "autobús"
  else if label = "truck" then "camión"
  else if label = "traffic light" then "semáforo"
  else if label = "fire hydrant" then "hidrante"
  else if label = "stop sign" then "señal de alto"
  else if label = "bench" then "banca"
  else if label = "bird" then "ave"
  else if label = "cat" then "gato"
  else if label = "dog" then "perro"
  else label

/-- Source: `NavigationSystem._alert_cooldown = 2.0`. -/
def ALERT_COOLDOWN : ℚ := 2

/-- Source: `NavigationSystem.trigger_alert(threat_info)`.  The mutable state is
`self._last_alert_time` (initially `0.0`); `now` is the `time.time()` value;
`voicePresent` says whether `self.voice` is configured.  Returns the
last-alert time after the call and the speech request sent to the voice
interface, if any.  Mirrors the body: return early inside the cooldown,
otherwise record `now` first and only then speak (speech happens only when a
voice interface exists). -/
def trigger_alert (voicePresent : Bool) (threat_info : Assessment)
    (last_alert_time now : ℚ) : ℚ × Option String :=
  if now - last_alert_time < ALERT_COOLDOWN then
    (last_alert_time, none)
  else
    let object_name := threat_info.highest_priority.object
    let message := "Cuidado, " ++ translateLabel object_name ++ " adelante"
    (now, if voicePresent then some message else none)

/-- The concrete `AERIAL_OBSTACLES` table of `config/constants.py`. -/
def AERIAL_OBSTACLES : String → Option ℕ := fun c =>
  if c = "person" then some 1
  else if c = "bicycle" then some 2
  else if c = "car" then some 2
  else if c = "motorcycle" then some 2
  else if c = "bus" then some 2
  else if c = "truck" then some 2
  else if c = "traffic light" then some 3
  else if c = "fire hydrant" then some 3
  else if c = "stop sign" then some 3
  else if c = "bench" then some 4
  else if c = "bird" then some 5
  else if c = "cat" then some 5
  else if c = "dog" then some 5
  else none

/-- The navigation configuration built by `main.py` from `config/constants.py`
(`AERIAL_ZONE_Y_MAX = 400`). -/
def defaultNavConfig : NavConfig :=
  { aerial_obstacles := AERIAL_OBSTACLES, aerial_zone_y_max := 400 }

/-! ## Track-id announcement de-duplication (`src/core/run_tracking_state.py`) -/

/-- One frame of the logging logic of `RunTracking._run_inference_loop`:
`new_ids = current_frame_ids - self.logged_ids` are announced (each one is
put on the speech queue) and then `self.logged_ids.update(new_ids)`.
Returns the announced ids and the logged set after the frame. -/
def announceStep (logged current_frame_ids : Finset ℕ) : Finset ℕ × Finset ℕ :=
  let new_ids := current_frame_ids \ logged
  (new_ids, logged ∪ new_ids)

/-- The per-frame announcements over a whole tracking session: frame `i` of
the input is the set of currently visible track ids, entry `i` of the output
is the set of ids announced on that frame. -/
def sessionAnnouncements (logged : Finset ℕ) : List (Finset ℕ) → List (Finset ℕ)
  | [] => []
  | f :: fs =>
    let step := announceStep logged f
    step.1 :: sessionAnnouncements step.2 fs

/-- The ids seen in the first `i` frames. -/
def seenIds (frames : List (Finset ℕ)) (i : ℕ) : Finset ℕ :=
  (frames.take i).foldl (· ∪ ·) ∅

/-! ## Concrete fixtures and claim-side tables -/

/-- A fresh `StateManager()` with no callbacks registered. -/
def initStateManager : StateManager :=
  { current_state := booting
    previous_state := none
    transition_history := []
    entry_callbacks := fun _ => none
    exit_callbacks := fun _ => none }

/-- A manager in `Running` whose exit callback for `Running` and entry
callback for `Throttling` both raise. -/
def failingCbManager : StateManager :=
  { current_state := running
    previous_state := none
    transition_history := []
    entry_callbacks := fun s => if s = throttling then some false else none
    exit_callbacks := fun s => if s = running then some false else none }

/-- An 8×8 matrix whose only nonzero cell is a 5000 mm reading at row 0,
column 0. -/
def singleDeepCell : Mat8 := fun r c => if r = 0 ∧ c = 0 then 5000 else 0

/-- An 8×8 matrix whose rows 0–1 read 2000 mm in the center columns 3–4 and
1250 mm elsewhere (rows 2–7 invalid). -/
def centerHoleMatrix : Mat8 := fun r c =>
  if r.val ≤ 1 then (if 3 ≤ c.val ∧ c.val ≤ 4 then 2000 else 1250) else 0

/-- A grid whose single in-range reading (1000 mm) sits at row 0, column 1 —
in the left zone of the top three rows. -/
def leftObstacleMatrix : Mat8 := fun r c => if r = 0 ∧ c = 1 then 1000 else 0

/-- A one-threat assessment used to exercise `trigger_alert`. -/
def sampleAssessment : Assessment :=
  { count := 1
    highest_priority :=
      { object := "person", confidence := 1, priority := 1, center := (0, 0) }
    all_threats :=
      [{ object := "person", confidence := 1, priority := 1, center := (0, 0) }] }

/-- A bicycle detection with confidence 0.6, bbox center (5, 5). -/
def dBicycle : Detection :=
  { class_id := 1, class_name := "bicycle", confidence := 3/5,
    bbox := (0, 0, 10, 10) }

/-- A car detection with confidence 0.9, bbox center (5, 5). -/
def dCar : Detection :=
  { class_id := 2, class_name := "car", confidence := 9/10,
    bbox := (0, 0, 10, 10) }

/-- The threat record `analyze_detections` builds for `dBicycle`. -/
def bicycleThreat : Threat :=
  { object := "bicycle", confidence := 3/5, priority := 2, center := (5, 5) }

/-- The threat record `analyze_detections` builds for `dCar`. -/
def carThreat : Threat :=
  { object := "car", confidence := 9/10, priority := 2, center := (5, 5) }

instance : IsTotal Threat threatLE :=
  ⟨fun a b => Nat.le_total a.priority b.priority⟩

instance : IsTrans Threat threatLE :=
  ⟨fun _ _ _ hab hbc => Nat.le_trans hab hbc⟩

/-- A cell registers left-zone danger: in range `(0, 1500)` and in columns
0–2. -/
def dangerLeftCell (m : Mat8) (rc : Fin 8 × Fin 8) : Bool :=
  decide (0 < m rc.1 rc.2 ∧ m rc.1 rc.2 < 1500) && decide (rc.2.val ≤ 2)

/-- A cell registers center-zone danger: in range `(0, 1500)` and in columns
3–4. -/
def dangerCenterCell (m : Mat8) (rc : Fin 8 × Fin 8) : Bool :=
  decide (0 < m rc.1 rc.2 ∧ m rc.1 rc.2 < 1500) &&
    (decide (2 < rc.2.val) && decide (rc.2.val < 5))

/-- A cell registers right-zone danger: in range `(0, 1500)` and in columns
5–7. -/
def dangerRightCell (m : Mat8) (rc : Fin 8 × Fin 8) : Bool :=
  decide (0 < m rc.1 rc.2 ∧ m rc.1 rc.2 < 1500) && decide (5 ≤ rc.2.val)

/-- The claim's left zone: some cell of rows 0–2, columns 0–2, reads strictly
between 0 and 1500 mm. -/
def zoneDangerLeft (m : Mat8) : Prop :=
  ∃ r c : Fin 8, r.val < 3 ∧ c.val ≤ 2 ∧ 0 < m r c ∧ m r c < 1500

/-- The claim's center zone: some cell of rows 0–2, columns 3–4, reads
strictly between 0 and 1500 mm. -/
def zoneDangerCenter (m : Mat8) : Prop :=
  ∃ r c : Fin 8, r.val < 3 ∧ 2 < c.val ∧ c.val < 5 ∧ 0 < m r c ∧ m r c < 1500

/-- The claim's right zone: some cell of rows 0–2, columns 5–7, reads
strictly between 0 and 1500 mm. -/
def zoneDangerRight (m : Mat8) : Prop :=
  ∃ r c : Fin 8, r.val < 3 ∧ 5 ≤ c.val ∧ 0 < m r c ∧ m r c < 1500

instance (m : Mat8) : Decidable (zoneDangerLeft m) :=
  decidable_of_iff
    (∃ r c : Fin 8, r.val < 3 ∧ c.val ≤ 2 ∧ 0 < m r c ∧ m r c < 1500) Iff.rfl

instance (m : Mat8) : Decidable (zoneDangerCenter m) :=
  decidable_of_iff
    (∃ r c : Fin 8, r.val < 3 ∧ 2 < c.val ∧ c.val < 5 ∧ 0 < m r c ∧ m r c < 1500)
    Iff.rfl

instance (m : Mat8) : Decidable (zoneDangerRight m) :=
  decidable_of_iff
    (∃ r c : Fin 8, r.val < 3 ∧ 5 ≤ c.val ∧ 0 < m r c ∧ m r c < 1500) Iff.rfl

/-- The claim's mapping of the three zone flags to the eight named outcomes
(none / left / right / center / left+right / left+center / center+right /
all-three, the wall case), written as the claim enumerates them. -/
def airOutcomeTable : Bool → Bool → Bool → Bool × String
  | false, false, false => (false, "")
  | true,  true,  true  => (true, "pared")
  | true,  false, true  => (true, "ambos lados")
  | true,  true,  false => (true, "frente e izquierda")
  | false, true,  true  => (true, "frente y derecha")
  | false, true,  false => (true, "frente")
  | true,  false, false => (true, "izquierda")
  | false, false, true  => (true, "derecha")

/-! ## Theorems -/

/-- The code's `valid_transitions` table coincides with the claim's allowed
table. -/
theorem is_valid_transition_iff :
    ∀ f t : SystemState, is_valid_transition f t = true ↔ (f, t) ∈ allowedPairs := by
  decide

/-- C1: for every current state and target, `transition_to` returns `true` and
leaves the history (and state) unchanged when the target equals the current
state; returns `false` and leaves state and history unchanged when the pair is
outside the allowed table; and otherwise returns `true`, sets the current
state to the target and appends exactly one history entry. -/
theorem transition_to_spec (sm : StateManager) (target : SystemState)
    (reason : String) (now : ℚ) :
    (target = sm.current_state →
      transition_to sm target reason now = (true, sm, [])) ∧
    (target ≠ sm.current_state → (sm.current_state, target) ∉ allowedPairs →
      transition_to sm target reason now = (false, sm, [])) ∧
    (target ≠ sm.current_state → (sm.current_state, target) ∈ allowedPairs →
      (transition_to sm target reason now).1 = true ∧
      (transition_to sm target reason now).2.1.current_state = target ∧
      (transition_to sm target reason now).2.1.transition_history =
        sm.transition_history ++
          [{ src := sm.current_state, dst := target, reason := reason,
             timestamp := now }]) := by
  refine ⟨fun heq => ?_, fun hne hnv => ?_, fun hne hv => ?_⟩
  · simp [transition_to, heq]
  · have hb : ¬ is_valid_transition sm.current_state target = true :=
      fun hc => hnv ((is_valid_transition_iff _ _).mp hc)
    simp [transition_to, hne, hb]
  · have hb : is_valid_transition sm.current_state target = true :=
      (is_valid_transition_iff _ _).mpr hv
    simp [transition_to, hne, hb]

/-- Witness for C1: on a fresh manager, `Booting → Running` is accepted,
updates the state and appends one history entry. -/
theorem transition_to_spec_witness :
    (transition_to initStateManager running "Init_Success" 1).1 = true ∧
    (transition_to initStateManager running "Init_Success" 1).2.1.current_state
      = running ∧
    (transition_to initStateManager running "Init_Success" 1).2.1.transition_history
      = [{ src := booting, dst := running, reason := "Init_Success",
           timestamp := 1 }] := by
  have h := (transition_to_spec initStateManager running "Init_Success" 1).2.2
    (by decide) (by decide)
  exact ⟨h.1, h.2.1, by rw [h.2.2]; rfl⟩

/-- C2: the thermal-monitor policy gives no transition at 79.9 °C in Running,
Throttling at 80.0 °C in Running, Running at 59.9 °C in Throttling, and Error
at ≥ 95.0 °C whatever the current state. -/
theorem thermalPolicy_spec :
    thermalPolicy (799/10) running = none ∧
    thermalPolicy 80 running = some throttling ∧
    thermalPolicy (599/10) throttling = some running ∧
    ∀ (temp : ℚ) (s : SystemState), 95 ≤ temp → thermalPolicy temp s = some error := by
  refine ⟨by norm_num [thermalPolicy, TEMP_NORMAL, TEMP_THROTTLE, TEMP_CRITICAL],
          by norm_num [thermalPolicy, TEMP_NORMAL, TEMP_THROTTLE, TEMP_CRITICAL],
          by norm_num [thermalPolicy, TEMP_NORMAL, TEMP_THROTTLE, TEMP_CRITICAL],
          fun temp s h => ?_⟩
  simp [thermalPolicy, TEMP_CRITICAL, h]

/-- Witness for C2: 100 °C in Shutdown still resolves to Error. -/
theorem thermalPolicy_spec_witness :
    thermalPolicy 100 shutdown = some error :=
  thermalPolicy_spec.2.2.2 100 shutdown (by norm_num)

/-- C8: on an accepted transition the side-effect trace is: exit-callback
events of the old state, then the state swap, then the history append, then
entry-callback events of the new state; a registered callback's event carries
its raise/return outcome, and whatever those outcomes are (exceptions are
caught), the swap and the append take effect and the call returns `true`. -/
theorem transition_callbacks_spec (sm : StateManager) (target : SystemState)
    (reason : String) (now : ℚ)
    (hne : target ≠ sm.current_state)
    (hv : (sm.current_state, target) ∈ allowedPairs) :
    (transition_to sm target reason now).1 = true ∧
    (transition_to sm target reason now).2.1.current_state = target ∧
    (transition_to sm target reason now).2.1.previous_state
      = some sm.current_state ∧
    (transition_to sm target reason now).2.1.transition_history =
      sm.transition_history ++
        [{ src := sm.current_state, dst := target, reason := reason,
           timestamp := now }] ∧
    ∃ pre post,
      (transition_to sm target reason now).2.2 =
        pre ++ [SMEvent.stateSet sm.current_state target,
                SMEvent.histAppend { src := sm.current_state, dst := target,
                                     reason := reason, timestamp := now }]
            ++ post ∧
      (∀ e ∈ pre, ∃ ok, e = SMEvent.exitCb sm.current_state ok ∧
          sm.exit_callbacks sm.current_state = some ok) ∧
      (∀ e ∈ post, ∃ ok, e = SMEvent.entryCb target ok ∧
          sm.entry_callbacks target = some ok) ∧
      (∀ ok, sm.exit_callbacks sm.current_state = some ok →
          SMEvent.exitCb sm.current_state ok ∈ pre) ∧
      (∀ ok, sm.entry_callbacks target = some ok →
          SMEvent.entryCb target ok ∈ post) := by
  have hb : is_valid_transition sm.current_state target = true :=
    (is_valid_transition_iff _ _).mpr hv
  rcases hx : sm.exit_callbacks sm.current_state with _ | okx <;>
    rcases hy : sm.entry_callbacks target with _ | oky
  · refine ⟨?_, ?_, ?_, ?_, [], [], ?_, ?_, ?_, ?_, ?_⟩ <;>
      simp [transition_to, hne, hb, hx, hy]
  · refine ⟨?_, ?_, ?_, ?_, [], [SMEvent.entryCb target oky], ?_, ?_, ?_, ?_, ?_⟩ <;>
      simp [transition_to, hne, hb, hx, hy]
  · refine ⟨?_, ?_, ?_, ?_, [SMEvent.exitCb sm.current_state okx], [],
      ?_, ?_, ?_, ?_, ?_⟩ <;> simp [transition_to, hne, hb, hx, hy]
  · refine ⟨?_, ?_, ?_, ?_, [SMEvent.exitCb sm.current_state okx],
      [SMEvent.entryCb target oky], ?_, ?_, ?_, ?_, ?_⟩ <;>
      simp [transition_to, hne, hb, hx, hy]

/-- C9: with a non-`None` stored baseline, `detect_hole` returns the driver
state unchanged whatever its verdict, and `detect_air_obstacle` touches no
driver state at all: both checks depend only on the given matrix and the
persistent baseline. -/
theorem detectors_preserve_baseline (st : TofState) (m : Mat8) (b : ℚ)
    (h : st.baseline_floor = some b) :
    (detect_hole st m).2 = st ∧ (detect_air_obstacleS st m).2 = st := by
  refine ⟨?_, rfl⟩
  obtain ⟨bf⟩ := st
  simp only at h
  subst h
  simp only [detect_hole]
  repeat' split
  all_goals rfl

/-- Witness for C9: on `singleDeepCell` with stored baseline 4000 mm, both
checks leave the driver state intact. -/
theorem detectors_preserve_baseline_witness :
    (detect_hole ⟨some 4000⟩ singleDeepCell).2 = ⟨some 4000⟩ ∧
    (detect_air_obstacleS ⟨some 4000⟩ singleDeepCell).2 = ⟨some 4000⟩ :=
  detectors_preserve_baseline ⟨some 4000⟩ singleDeepCell 4000 rfl

/-- Counterexample to C5 as stated: on a fresh `NavigationSystem` the
last-alert time starts at `0.0`, so with calls at times 0 s, 1.5 s and 2.5 s
the first call is already inside the cooldown window (0 − 0 < 2.0) and
produces no speech request — only the third call speaks, not the first. -/
theorem trigger_alert_first_call_counterexample :
    trigger_alert true sampleAssessment 0 0 = (0, none) ∧
    trigger_alert true sampleAssessment 0 (3/2) = (0, none) ∧
    trigger_alert true sampleAssessment 0 (5/2) =
      (5/2, some "Cuidado, persona adelante") := by
  refine ⟨?_, ?_, ?_⟩
  · norm_num [trigger_alert, ALERT_COOLDOWN]
  · norm_num [trigger_alert, ALERT_COOLDOWN]
  · rw [trigger_alert, if_neg (by norm_num [ALERT_COOLDOWN])]
    rfl

/-- C5 (amended): the cooldown is enforced against the stored last-alert
timestamp, which starts at `0.0`.  A call strictly inside the cooldown is a
no-op (no speech, timestamp kept); a call at or past the cooldown updates the
timestamp to the call time and, with a voice interface, produces the speech
request.  Consequently, for calls at times `t`, `t + 1.5` and `t + 2.5` with
`t` at least the cooldown after the initial timestamp `0.0`, the first and
third calls speak and the second does not; with `t = 0` (the claim's literal
example) the first call is suppressed as well. -/
theorem trigger_alert_cooldown_spec (a : Assessment) (last now : ℚ) :
    (now - last < ALERT_COOLDOWN →
      ∀ v : Bool, trigger_alert v a last now = (last, none)) ∧
    (ALERT_COOLDOWN ≤ now - last →
      trigger_alert true a last now =
        (now, some ("Cuidado, " ++ translateLabel a.highest_priority.object
          ++ " adelante"))) ∧
    (∀ t : ℚ, ALERT_COOLDOWN ≤ t →
      (trigger_alert true a 0 t).2.isSome = true ∧
      trigger_alert true a (trigger_alert true a 0 t).1 (t + 3/2) =
        ((trigger_alert true a 0 t).1, none) ∧
      (trigger_alert true a
        (trigger_alert true a (trigger_alert true a 0 t).1 (t + 3/2)).1
        (t + 5/2)).2.isSome = true) := by
  refine ⟨fun h v => ?_, fun h => ?_, fun t ht => ?_⟩
  · simp [trigger_alert, h]
  · rw [trigger_alert, if_neg (by linarith)]
    rfl
  · have h1 : trigger_alert true a 0 t =
        (t, some ("Cuidado, " ++ translateLabel a.highest_priority.object
          ++ " adelante")) := by
      rw [trigger_alert, if_neg (by rw [ALERT_COOLDOWN] at ht ⊢; linarith)]
      rfl
    have h2 : trigger_alert true a t (t + 3/2) = (t, none) := by
      rw [trigger_alert, if_pos (by rw [ALERT_COOLDOWN]; linarith)]
    refine ⟨by rw [h1]; rfl, ?_, ?_⟩
    · rw [h1]
      exact h2
    · rw [h1]
      rw [h2]
      rw [trigger_alert, if_neg (by rw [ALERT_COOLDOWN]; push_neg; linarith)]
      rfl

/-- Witness for C5: at `t = 2` the first and third calls of the amended
example speak and the second does not. -/
theorem trigger_alert_cooldown_spec_witness :
    (trigger_alert true sampleAssessment 0 2).2.isSome = true ∧
    trigger_alert true sampleAssessment
        (trigger_alert true sampleAssessment 0 2).1 (2 + 3/2) =
      ((trigger_alert true sampleAssessment 0 2).1, none) ∧
    (trigger_alert true sampleAssessment
        (trigger_alert true sampleAssessment
          (trigger_alert true sampleAssessment 0 2).1 (2 + 3/2)).1
        (2 + 5/2)).2.isSome = true :=
  (trigger_alert_cooldown_spec sampleAssessment 0 0).2.2 2
    (by norm_num [ALERT_COOLDOWN])

/-- C10: whenever a `trigger_alert` call passes the cooldown check, the
last-alert timestamp becomes the call time whether or not a voice interface
is configured; with no voice interface the passing call produces no speech
request, yet a subsequent call inside the cooldown window is still
suppressed. -/
theorem trigger_alert_silent_pass_spec (a : Assessment) (last now : ℚ)
    (h : ALERT_COOLDOWN ≤ now - last) :
    (∀ v : Bool, (trigger_alert v a last now).1 = now) ∧
    (trigger_alert false a last now).2 = none ∧
    (∀ now2 : ℚ, now2 - now < ALERT_COOLDOWN →
      ∀ v : Bool,
        trigger_alert v a (trigger_alert false a last now).1 now2 =
          ((trigger_alert false a last now).1, none)) := by
  have hpass : ¬ (now - last < ALERT_COOLDOWN) := not_lt.mpr h
  refine ⟨fun v => ?_, ?_, fun now2 h2 v => ?_⟩
  · rw [trigger_alert, if_neg hpass]
  · rw [trigger_alert, if_neg hpass]
    rfl
  · have hfst : (trigger_alert false a last now).1 = now := by
      rw [trigger_alert, if_neg hpass]
    rw [hfst, trigger_alert, if_pos h2]

/-- Witness for C10: a silent pass at time 2 (no voice interface) still arms
the cooldown, so a call at time 3 is suppressed. -/
theorem trigger_alert_silent_pass_spec_witness :
    (trigger_alert false sampleAssessment 0 2).1 = 2 ∧
    (trigger_alert false sampleAssessment 0 2).2 = none ∧
    trigger_alert true sampleAssessment
        (trigger_alert false sampleAssessment 0 2).1 3 =
      ((trigger_alert false sampleAssessment 0 2).1, none) := by
  have h := trigger_alert_silent_pass_spec sampleAssessment 0 2
    (by norm_num [ALERT_COOLDOWN])
  exact ⟨h.1 false, h.2.1, h.2.2 3 (by norm_num [ALERT_COOLDOWN]) true⟩

/-- Witness for C8: `Running → Throttling` with both callbacks raising still
succeeds, and the trace shows exit, swap, append, entry in order. -/
theorem transition_callbacks_spec_witness :
    (transition_to failingCbManager throttling "Overheat" 2).1 = true ∧
    (transition_to failingCbManager throttling "Overheat" 2).2.1.current_state
      = throttling ∧
    (transition_to failingCbManager throttling "Overheat" 2).2.2 =
      [SMEvent.exitCb running false,
       SMEvent.stateSet running throttling,
       SMEvent.histAppend { src := running, dst := throttling,
                            reason := "Overheat", timestamp := 2 },
       SMEvent.entryCb throttling false] := by
  have h := transition_callbacks_spec failingCbManager throttling "Overheat" 2
    (by decide) (by decide)
  exact ⟨h.1, h.2.1, rfl⟩

/-! ### Sorting lemmas for the threat list -/

/-- Inserting into a list moves the new element past exactly the elements of
strictly smaller priority, so the sublist of any fixed priority is preserved
up to consing the new element in front. -/
theorem filter_orderedInsert (p : ℕ) (x : Threat) (l : List Threat) :
    (List.orderedInsert threatLE x l).filter (fun t => t.priority == p) =
      if x.priority = p then
        x :: l.filter (fun t => t.priority == p)
      else
        l.filter (fun t => t.priority == p) := by
  induction l with
  | nil =>
    by_cases hx : x.priority = p <;>
      simp [List.orderedInsert, List.filter_cons, hx]
  | cons b t ih =>
    by_cases hr : threatLE x b
    · by_cases hx : x.priority = p <;>
        simp [List.orderedInsert, hr, List.filter_cons, hx]
    · have hlt : b.priority < x.priority := by
        simpa [threatLE, Nat.not_le] using hr
      by_cases hx : x.priority = p
      · have hb : ¬ b.priority = p := by omega
        simp [List.orderedInsert, hr, List.filter_cons, hx, hb, ih]
      · by_cases hb : b.priority = p <;>
          simp [List.orderedInsert, hr, List.filter_cons, hx, hb, ih]

/-- Stability of the priority sort: within one priority class the sorted list
keeps the original order. -/
theorem filter_sortThreats (p : ℕ) (l : List Threat) :
    (sortThreats l).filter (fun t => t.priority == p) =
      l.filter (fun t => t.priority == p) := by
  induction l with
  | nil => rfl
  | cons b t ih =>
    rw [sortThreats, List.insertionSort, filter_orderedInsert]
    rw [sortThreats] at ih
    by_cases hb : b.priority = p <;> simp [List.filter_cons, hb, ih]

/-- The filtering loop of `analyze_detections` keeps exactly the detections
whose class is a key of the priority table and whose vertical center is in
the aerial zone, in input order. -/
theorem collectThreats_eq (cfg : NavConfig) (detections : List Detection) :
    collectThreats cfg detections =
      (detections.filter (fun d => (cfg.aerial_obstacles d.class_name).isSome &&
          d.is_in_aerial_zone cfg.aerial_zone_y_max)).map
        (fun d => { object := d.class_name, confidence := d.confidence,
                    priority := (cfg.aerial_obstacles d.class_name).getD 0,
                    center := d.get_center }) := by
  induction detections with
  | nil => rfl
  | cons d ds ih =>
    rcases hc : cfg.aerial_obstacles d.class_name with _ | p
    · simp [collectThreats, List.filter_cons, hc, ih]
    · by_cases hz : d.is_in_aerial_zone cfg.aerial_zone_y_max = true <;>
        simp [collectThreats, List.filter_cons, hc, hz, ih]

/-- C6 (amended): `analyze_detections` keeps exactly the detections whose
class is a key of the priority table and whose vertical bbox center is inside
the aerial zone; it returns `None` exactly when nothing survives, and
otherwise the threat list is a permutation of the surviving detections sorted
ascending by priority, with ties among equal priorities kept in the original
detection order (Python's sort is stable; confidence plays no part), the
`highest_priority` entry is the first element of the sorted list, and `count`
is the number of survivors. -/
theorem analyze_detections_spec (cfg : NavConfig) (detections : List Detection) :
    (analyze_detections cfg detections = none ↔
      collectThreats cfg detections = []) ∧
    collectThreats cfg detections =
      (detections.filter (fun d => (cfg.aerial_obstacles d.class_name).isSome &&
          d.is_in_aerial_zone cfg.aerial_zone_y_max)).map
        (fun d => { object := d.class_name, confidence := d.confidence,
                    priority := (cfg.aerial_obstacles d.class_name).getD 0,
                    center := d.get_center }) ∧
    (∀ a, analyze_detections cfg detections = some a →
      a.all_threats.Perm (collectThreats cfg detections) ∧
      List.Sorted threatLE a.all_threats ∧
      (∀ p : ℕ, a.all_threats.filter (fun t => t.priority == p) =
        (collectThreats cfg detections).filter (fun t => t.priority == p)) ∧
      a.count = (collectThreats cfg detections).length ∧
      a.all_threats.head? = some a.highest_priority) := by
  refine ⟨?_, collectThreats_eq cfg detections, fun a ha => ?_⟩
  · by_cases h : collectThreats cfg detections = [] <;>
      simp [analyze_detections, h]
  · have h : ¬ collectThreats cfg detections = [] := by
      intro h
      rw [analyze_detections] at ha
      simp [h] at ha
    rw [analyze_detections, if_neg h] at ha
    obtain rfl :
        ({ count := (collectThreats cfg detections).length
           highest_priority := (sortThreats (collectThreats cfg detections)).headI
           all_threats := sortThreats (collectThreats cfg detections) }
          : Assessment) = a := Option.some.inj ha
    refine ⟨List.perm_insertionSort threatLE _,
      List.sorted_insertionSort threatLE (collectThreats cfg detections),
      fun p => filter_sortThreats p _, rfl, ?_⟩
    have hne : sortThreats (collectThreats cfg detections) ≠ [] := by
      intro hnil
      have hp := List.perm_insertionSort threatLE (collectThreats cfg detections)
      rw [sortThreats] at hnil
      rw [hnil] at hp
      exact h hp.symm.eq_nil
    rcases hs : sortThreats (collectThreats cfg detections) with _ | ⟨x, xs⟩
    · exact absurd hs hne
    · simp [hs]

/-- Counterexample to C6 as stated: `bicycle` and `car` share priority 2 in
`AERIAL_OBSTACLES`; on input `[bicycle 0.6, car 0.9]` the sort is stable, so
the lower-confidence bicycle stays ahead of the higher-confidence car — the
tie is not broken by descending confidence. -/
theorem analyze_detections_tie_counterexample :
    bicycleThreat.priority = carThreat.priority ∧
    dBicycle.confidence < dCar.confidence ∧
    analyze_detections defaultNavConfig [dBicycle, dCar] =
      some { count := 2, highest_priority := bicycleThreat,
             all_threats := [bicycleThreat, carThreat] } := by
  refine ⟨rfl, by norm_num [dBicycle, dCar], rfl⟩

/-- Witness for C6: the amended theorem instantiated on
`[bicycle 0.6, car 0.9]`. -/
theorem analyze_detections_spec_witness :
    ([bicycleThreat, carThreat] : List Threat).Perm
        (collectThreats defaultNavConfig [dBicycle, dCar]) ∧
    List.Sorted threatLE [bicycleThreat, carThreat] ∧
    (∀ p : ℕ, ([bicycleThreat, carThreat] : List Threat).filter
        (fun t => t.priority == p) =
      (collectThreats defaultNavConfig [dBicycle, dCar]).filter
        (fun t => t.priority == p)) ∧
    (2 : ℕ) = (collectThreats defaultNavConfig [dBicycle, dCar]).length ∧
    ([bicycleThreat, carThreat] : List Threat).head? = some bicycleThreat := by
  have h := (analyze_detections_spec defaultNavConfig [dBicycle, dCar]).2.2
    { count := 2, highest_priority := bicycleThreat,
      all_threats := [bicycleThreat, carThreat] } rfl
  exact h

/-! ### Track-id de-duplication lemmas -/

/-- Folding unions starting from `a` is `a` joined with the fold from `∅`. -/
theorem foldl_union_init (l : List (Finset ℕ)) (a : Finset ℕ) :
    l.foldl (· ∪ ·) a = a ∪ l.foldl (· ∪ ·) ∅ := by
  induction l generalizing a with
  | nil => simp
  | cons s t ih =>
    rw [List.foldl_cons, List.foldl_cons, ih (a ∪ s), ih (∅ ∪ s)]
    simp [Finset.union_assoc]

/-- Membership in a fold of unions is membership in one of the sets. -/
theorem mem_foldl_union (l : List (Finset ℕ)) (x : ℕ) :
    x ∈ l.foldl (· ∪ ·) ∅ ↔ ∃ s ∈ l, x ∈ s := by
  induction l with
  | nil => simp
  | cons s t ih =>
    rw [List.foldl_cons, foldl_union_init]
    simp [ih]

/-- Source: `sessionAnnouncements` produces one announcement set per frame. -/
theorem sessionAnnouncements_length (logged : Finset ℕ)
    (frames : List (Finset ℕ)) :
    (sessionAnnouncements logged frames).length = frames.length := by
  induction frames generalizing logged with
  | nil => rfl
  | cons f fs ih => simp [sessionAnnouncements, ih]

/-- Frame `i` announces exactly the ids of frame `i` that are neither in the
initial logged set nor in any earlier frame. -/
theorem sessionAnnouncements_getElem (frames : List (Finset ℕ))
    (logged : Finset ℕ) (i : ℕ) (h : i < frames.length) :
    (sessionAnnouncements logged frames)[i]? =
      some (frames[i] \ (logged ∪ seenIds frames i)) := by
  induction frames generalizing logged i with
  | nil => exact absurd h (by simp)
  | cons f fs ih =>
    cases i with
    | zero =>
      simp [sessionAnnouncements, announceStep, seenIds]
    | succ j =>
      have hj : j < fs.length := by simpa using h
      have hrec := ih (logged ∪ (f \ logged)) j hj
      simp only [sessionAnnouncements, announceStep, List.getElem?_cons_succ]
      rw [hrec]
      have hseen : seenIds (f :: fs) (j + 1) = f ∪ seenIds fs j := by
        rw [seenIds, List.take_succ_cons, List.foldl_cons, foldl_union_init]
        simp [seenIds]
      rw [List.getElem_cons_succ, hseen, Finset.union_sdiff_self_eq_union,
        Finset.union_assoc]

/-- Every id of an earlier frame has been seen by frame `j`. -/
theorem getElem_subset_seenIds (frames : List (Finset ℕ)) (i j : ℕ)
    (hij : i < j) (hi : i < frames.length) :
    frames[i] ⊆ seenIds frames j := by
  intro x hx
  rw [seenIds, mem_foldl_union]
  refine ⟨frames[i], ?_, hx⟩
  have hlen : i < (frames.take j).length := by
    simp only [List.length_take]
    omega
  have heq : (frames.take j)[i] = frames[i] := List.getElem_take frames
  rw [← heq]
  exact List.getElem_mem hlen

/-- C7: over a tracking session starting with an empty logged set, frame `i`
announces exactly the ids present in frame `i` and absent from every earlier
frame (the logged set absorbs each announced id); consequently no id is
announced by two different frames, an id that reappears under the same id is
never re-announced, and an id never seen before is announced. -/
theorem track_dedup_spec (frames : List (Finset ℕ)) :
    (∀ logged current : Finset ℕ,
      announceStep logged current = (current \ logged, logged ∪ current)) ∧
    (∀ i, ∀ hi : i < frames.length,
      (sessionAnnouncements ∅ frames)[i]? =
        some (frames[i] \ seenIds frames i)) ∧
    (∀ (x : ℕ) (i j : ℕ) (a b : Finset ℕ),
      (sessionAnnouncements ∅ frames)[i]? = some a →
      (sessionAnnouncements ∅ frames)[j]? = some b →
      x ∈ a → x ∈ b → i = j) ∧
    (∀ i, ∀ hi : i < frames.length, ∀ x, x ∈ frames[i] →
      (∀ j, ∀ hj : j < i, x ∉ frames[j]) →
      ∃ a, (sessionAnnouncements ∅ frames)[i]? = some a ∧ x ∈ a) := by
  have hchar : ∀ i, ∀ hi : i < frames.length,
      (sessionAnnouncements ∅ frames)[i]? =
        some (frames[i] \ seenIds frames i) := by
    intro i h
    rw [sessionAnnouncements_getElem frames ∅ i h]
    simp
  refine ⟨fun logged current => ?_, hchar, fun x i j a b ha hb hxa hxb => ?_,
    fun i hi x hx hfresh => ?_⟩
  · simp [announceStep, Finset.union_sdiff_self_eq_union]
  · have hi : i < frames.length := by
      have := List.getElem?_eq_some.mp ha
      obtain ⟨hlt, -⟩ := this
      rwa [sessionAnnouncements_length] at hlt
    have hj : j < frames.length := by
      have := List.getElem?_eq_some.mp hb
      obtain ⟨hlt, -⟩ := this
      rwa [sessionAnnouncements_length] at hlt
    rw [hchar i hi] at ha
    rw [hchar j hj] at hb
    obtain rfl := Option.some.inj ha
    obtain rfl := Option.some.inj hb
    by_contra hne
    rcases Nat.lt_or_ge i j with hij | hij
    · have hxin : x ∈ frames[i] := (Finset.mem_sdiff.mp hxa).1
      have : x ∈ seenIds frames j := getElem_subset_seenIds frames i j hij hi hxin
      exact (Finset.mem_sdiff.mp hxb).2 this
    · have hji : j < i := Nat.lt_of_le_of_ne hij (fun hh => hne hh.symm)
      have hxin : x ∈ frames[j] := (Finset.mem_sdiff.mp hxb).1
      have : x ∈ seenIds frames i := getElem_subset_seenIds frames j i hji hj hxin
      exact (Finset.mem_sdiff.mp hxa).2 this
  · refine ⟨frames[i] \ seenIds frames i, hchar i hi, ?_⟩
    rw [Finset.mem_sdiff]
    refine ⟨hx, fun hseen => ?_⟩
    rw [seenIds, mem_foldl_union] at hseen
    obtain ⟨s, hs, hxs⟩ := hseen
    obtain ⟨j, hjlen, rfl⟩ := List.mem_iff_getElem.mp hs
    have hjlt : j < i := by
      have := hjlen
      simp only [List.length_take] at this
      omega
    have heq : (frames.take i)[j] = frames[j] := List.getElem_take frames
    rw [heq] at hxs
    exact hfresh j hjlt hxs

/-- Witness for C7 on the spec's example: frames `{5}, {5}, ∅, {9}` — id 5 is
announced on frame 0 only, nothing on frames 1 and 2, and the fresh id 9 on
frame 3. -/
theorem track_dedup_spec_witness :
    (sessionAnnouncements ∅ [{5}, {5}, ∅, {9}])[0]? = some {5} ∧
    (sessionAnnouncements ∅ [{5}, {5}, ∅, {9}])[1]? = some ∅ ∧
    (sessionAnnouncements ∅ [{5}, {5}, ∅, {9}])[2]? = some ∅ ∧
    (sessionAnnouncements ∅ [{5}, {5}, ∅, {9}])[3]? = some {9} := by
  have h := (track_dedup_spec [{5}, {5}, ∅, {9}]).2.1
  refine ⟨?_, ?_, ?_, ?_⟩
  · rw [h 0 (by decide)]
    decide
  · rw [h 1 (by decide)]
    decide
  · rw [h 2 (by decide)]
    decide
  · rw [h 3 (by decide)]
    decide

/-! ### Forward-obstacle lemmas -/

/-- The flag-setting fold evaluates each flag as "some scanned cell registers
danger for that zone". -/
theorem airFold_eq (m : Mat8) (l : List (Fin 8 × Fin 8))
    (init : Bool × Bool × Bool) :
    l.foldl (airFlagStep m) init =
      (init.1 || l.any (dangerLeftCell m),
       init.2.1 || l.any (dangerCenterCell m),
       init.2.2 || l.any (dangerRightCell m)) := by
  induction l generalizing init with
  | nil => simp
  | cons rc t ih =>
    rw [List.foldl_cons, ih]
    rcases init with ⟨a, b, c⟩
    by_cases h1 : 0 < m rc.1 rc.2 ∧ m rc.1 rc.2 < 1500
    · by_cases h2 : rc.2.val ≤ 2
      · have hc : ¬ 2 < rc.2.val := by omega
        have h5 : ¬ 5 ≤ rc.2.val := by omega
        simp [airFlagStep, dangerLeftCell, dangerCenterCell, dangerRightCell,
          List.any_cons, h1, h2, hc, h5, Bool.or_assoc]
      · by_cases h5 : 5 ≤ rc.2.val
        · have hc : ¬ rc.2.val < 5 := by omega
          simp [airFlagStep, dangerLeftCell, dangerCenterCell, dangerRightCell,
            List.any_cons, h1, h2, h5, hc, Bool.or_assoc]
        · have hc1 : 2 < rc.2.val := by omega
          have hc2 : rc.2.val < 5 := by omega
          simp [airFlagStep, dangerLeftCell, dangerCenterCell, dangerRightCell,
            List.any_cons, h1, h2, h5, hc1, hc2, Bool.or_assoc]
    · simp [airFlagStep, dangerLeftCell, dangerCenterCell, dangerRightCell,
        List.any_cons, h1]

/-- The scanned cells are exactly those of rows 0–2. -/
theorem mem_airScanCells : ∀ rc : Fin 8 × Fin 8, rc ∈ airScanCells ↔ rc.1.val < 3 := by
  decide

/-- Source: `left_danger` is set exactly when the left zone has an in-range cell. -/
theorem airFlags_left_iff (m : Mat8) :
    (airFlags m).1 = true ↔ zoneDangerLeft m := by
  rw [airFlags, airFold_eq]
  simp only [Bool.false_or]
  rw [List.any_eq_true]
  constructor
  · rintro ⟨rc, hmem, hcell⟩
    rw [mem_airScanCells] at hmem
    simp only [dangerLeftCell, Bool.and_eq_true, decide_eq_true_eq] at hcell
    exact ⟨rc.1, rc.2, hmem, hcell.2, hcell.1.1, hcell.1.2⟩
  · rintro ⟨r, c, hr, hc, h0, h15⟩
    refine ⟨(r, c), (mem_airScanCells (r, c)).mpr hr, ?_⟩
    simp [dangerLeftCell, h0, h15, hc]

/-- Source: `center_danger` is set exactly when the center zone has an in-range
cell. -/
theorem airFlags_center_iff (m : Mat8) :
    (airFlags m).2.1 = true ↔ zoneDangerCenter m := by
  rw [airFlags, airFold_eq]
  simp only [Bool.false_or]
  rw [List.any_eq_true]
  constructor
  · rintro ⟨rc, hmem, hcell⟩
    rw [mem_airScanCells] at hmem
    simp only [dangerCenterCell, Bool.and_eq_true, decide_eq_true_eq] at hcell
    exact ⟨rc.1, rc.2, hmem, hcell.2.1, hcell.2.2, hcell.1.1, hcell.1.2⟩
  · rintro ⟨r, c, hr, hc1, hc2, h0, h15⟩
    refine ⟨(r, c), (mem_airScanCells (r, c)).mpr hr, ?_⟩
    simp [dangerCenterCell, h0, h15, hc1, hc2]

/-- Source: `right_danger` is set exactly when the right zone has an in-range cell. -/
theorem airFlags_right_iff (m : Mat8) :
    (airFlags m).2.2 = true ↔ zoneDangerRight m := by
  rw [airFlags, airFold_eq]
  simp only [Bool.false_or]
  rw [List.any_eq_true]
  constructor
  · rintro ⟨rc, hmem, hcell⟩
    rw [mem_airScanCells] at hmem
    simp only [dangerRightCell, Bool.and_eq_true, decide_eq_true_eq] at hcell
    exact ⟨rc.1, rc.2, hmem, hcell.2, hcell.1.1, hcell.1.2⟩
  · rintro ⟨r, c, hr, hc, h0, h15⟩
    refine ⟨(r, c), (mem_airScanCells (r, c)).mpr hr, ?_⟩
    simp [dangerRightCell, h0, h15, hc]

/-- The if/elif chain of `detect_air_obstacle` computes exactly the outcome
table applied to the three flags. -/
theorem detect_air_obstacle_eq_table (m : Mat8) :
    detect_air_obstacle m =
      airOutcomeTable (airFlags m).1 (airFlags m).2.1 (airFlags m).2.2 := by
  rcases h : airFlags m with ⟨a, b, c⟩
  cases a <;> cases b <;> cases c <;>
    simp [detect_air_obstacle, h, airOutcomeTable]

/-- C4: `detect_air_obstacle` marks a zone dangerous exactly when some cell of
the top three rows in that zone's columns reads strictly between 0 and
1500 mm, maps the three flags through the eight-outcome table, the table is
injective (the eight outcomes are mutually distinct), and a grid whose only
in-range readings are in the left zone yields the left-only outcome. -/
theorem detect_air_obstacle_spec (m : Mat8) :
    detect_air_obstacle m =
      airOutcomeTable (decide (zoneDangerLeft m)) (decide (zoneDangerCenter m))
        (decide (zoneDangerRight m)) ∧
    (∀ a b c a2 b2 c2 : Bool,
      airOutcomeTable a b c = airOutcomeTable a2 b2 c2 →
      a = a2 ∧ b = b2 ∧ c = c2) ∧
    (zoneDangerLeft m → ¬ zoneDangerCenter m → ¬ zoneDangerRight m →
      detect_air_obstacle m = (true, "izquierda")) := by
  have h1 : (airFlags m).1 = decide (zoneDangerLeft m) := by
    by_cases h : zoneDangerLeft m <;> simp only [h, decide_True, decide_False]
    · exact (airFlags_left_iff m).mpr h
    · rw [← Bool.not_eq_true, airFlags_left_iff]
      exact h
  have h2 : (airFlags m).2.1 = decide (zoneDangerCenter m) := by
    by_cases h : zoneDangerCenter m <;> simp only [h, decide_True, decide_False]
    · exact (airFlags_center_iff m).mpr h
    · rw [← Bool.not_eq_true, airFlags_center_iff]
      exact h
  have h3 : (airFlags m).2.2 = decide (zoneDangerRight m) := by
    by_cases h : zoneDangerRight m <;> simp only [h, decide_True, decide_False]
    · exact (airFlags_right_iff m).mpr h
    · rw [← Bool.not_eq_true, airFlags_right_iff]
      exact h
  have hmain : detect_air_obstacle m =
      airOutcomeTable (decide (zoneDangerLeft m)) (decide (zoneDangerCenter m))
        (decide (zoneDangerRight m)) := by
    rw [detect_air_obstacle_eq_table, h1, h2, h3]
  refine ⟨hmain, by decide, fun hl hc hr => ?_⟩
  rw [hmain]
  simp [hl, hc, hr, airOutcomeTable]

/-- Witness for C4: the left-only grid is reported as `izquierda`. -/
theorem detect_air_obstacle_spec_witness :
    detect_air_obstacle leftObstacleMatrix = (true, "izquierda") :=
  (detect_air_obstacle_spec leftObstacleMatrix).2.2
    (by decide) (by decide) (by decide)

/-! ### Hole-detection lemmas -/

/-- The dict-max of the dangerous zones computes the claim's zone choice:
highest average among the thirds over the threshold, ties left-to-right. -/
theorem pyMaxKey_zones (aL aC aR thr : ℚ) :
    pyMaxKey (([("izquierda", aL), ("medio", aC), ("derecha", aR)]).filter
      (fun z => thr < z.2)) = claimHoleZone aL aC aR thr := by
  by_cases d1 : thr < aL <;> by_cases d2 : thr < aC <;> by_cases d3 : thr < aR
  · -- all three dangerous
    have hfil : ([("izquierda", aL), ("medio", aC), ("derecha", aR)]).filter
        (fun z => thr < z.2) = [("izquierda", aL), ("medio", aC), ("derecha", aR)] := by
      simp [d1, d2, d3]
    rw [hfil]
    by_cases e1 : aL < aC
    · by_cases e2 : aC < aR
      · have hACL : ¬ aC ≤ aL := not_le.mpr e1
        have hARL : ¬ aR ≤ aL := not_le.mpr (lt_trans e1 e2)
        have hARC : ¬ aR ≤ aC := not_le.mpr e2
        simp [pyMaxKey, pyMaxKeyGo, claimHoleZone, d1, d2, d3, e1, e2,
          hACL, hARL, hARC]
      · have hACL : ¬ aC ≤ aL := not_le.mpr e1
        have hARC : aR ≤ aC := not_lt.mp e2
        simp [pyMaxKey, pyMaxKeyGo, claimHoleZone, d1, d2, d3, e1, e2,
          hACL, hARC]
    · by_cases e2 : aL < aR
      · have hACL : aC ≤ aL := not_lt.mp e1
        have hARL : ¬ aR ≤ aL := not_le.mpr e2
        have hARC : ¬ aR ≤ aC := not_le.mpr (lt_of_le_of_lt hACL e2)
        simp [pyMaxKey, pyMaxKeyGo, claimHoleZone, d1, d2, d3, e1, e2,
          hACL, hARL, hARC]
      · have hACL : aC ≤ aL := not_lt.mp e1
        have hARL : aR ≤ aL := not_lt.mp e2
        simp [pyMaxKey, pyMaxKeyGo, claimHoleZone, d1, d2, d3, e1, e2,
          hACL, hARL]
  · -- left and center dangerous
    have hfil : ([("izquierda", aL), ("medio", aC), ("derecha", aR)]).filter
        (fun z => thr < z.2) = [("izquierda", aL), ("medio", aC)] := by
      simp [d1, d2, d3]
    rw [hfil]
    by_cases e1 : aL < aC
    · have hACL : ¬ aC ≤ aL := not_le.mpr e1
      simp [pyMaxKey, pyMaxKeyGo, claimHoleZone, d1, d2, d3, e1, hACL]
    · have hACL : aC ≤ aL := not_lt.mp e1
      simp [pyMaxKey, pyMaxKeyGo, claimHoleZone, d1, d2, d3, e1, hACL]
  · -- left and right dangerous
    have hfil : ([("izquierda", aL), ("medio", aC), ("derecha", aR)]).filter
        (fun z => thr < z.2) = [("izquierda", aL), ("derecha", aR)] := by
      simp [d1, d2, d3]
    rw [hfil]
    by_cases e1 : aL < aR
    · have hARL : ¬ aR ≤ aL := not_le.mpr e1
      simp [pyMaxKey, pyMaxKeyGo, claimHoleZone, d1, d2, d3, e1, hARL]
    · have hARL : aR ≤ aL := not_lt.mp e1
      simp [pyMaxKey, pyMaxKeyGo, claimHoleZone, d1, d2, d3, e1, hARL]
  · -- only left dangerous
    have hfil : ([("izquierda", aL), ("medio", aC), ("derecha", aR)]).filter
        (fun z => thr < z.2) = [("izquierda", aL)] := by
      simp [d1, d2, d3]
    rw [hfil]
    simp [pyMaxKey, pyMaxKeyGo, claimHoleZone, d1, d2, d3]
  · -- center and right dangerous
    have hfil : ([("izquierda", aL), ("medio", aC), ("derecha", aR)]).filter
        (fun z => thr < z.2) = [("medio", aC), ("derecha", aR)] := by
      simp [d1, d2, d3]
    rw [hfil]
    by_cases e1 : aC < aR
    · have hARC : ¬ aR ≤ aC := not_le.mpr e1
      simp [pyMaxKey, pyMaxKeyGo, claimHoleZone, d1, d2, d3, e1, hARC]
    · have hARC : aR ≤ aC := not_lt.mp e1
      simp [pyMaxKey, pyMaxKeyGo, claimHoleZone, d1, d2, d3, e1, hARC]
  · -- only center dangerous
    have hfil : ([("izquierda", aL), ("medio", aC), ("derecha", aR)]).filter
        (fun z => thr < z.2) = [("medio", aC)] := by
      simp [d1, d2, d3]
    rw [hfil]
    simp [pyMaxKey, pyMaxKeyGo, claimHoleZone, d1, d2, d3]
  · -- only right dangerous
    have hfil : ([("izquierda", aL), ("medio", aC), ("derecha", aR)]).filter
        (fun z => thr < z.2) = [("derecha", aR)] := by
      simp [d1, d2, d3]
    rw [hfil]
    simp [pyMaxKey, pyMaxKeyGo, claimHoleZone, d1, d2, d3]
  · -- nothing dangerous
    have hfil : ([("izquierda", aL), ("medio", aC), ("derecha", aR)]).filter
        (fun z => thr < z.2) = [] := by
      simp [d1, d2, d3]
    rw [hfil]
    simp [pyMaxKey, claimHoleZone, d1, d2, d3]

/-- C3 (amended): with a non-`None` baseline `b`, `detect_hole` reports a
full-width hole when every cell of rows 0–1 is invalid; reports nothing when
the mean of the valid cells exceeds the baseline by at most 300 mm; and when
the mean exceeds it by more than 300 mm, reports the full-width drop if all
three third-averages (invalid cells read as 4000 mm) exceed `b + 300`, else
the third with the highest average among those exceeding `b + 300` (ties
left-to-right) — and reports nothing when no third exceeds `b + 300`. -/
theorem detect_hole_spec (m : Mat8) (b : ℚ) (st : TofState)
    (hst : st.baseline_floor = some b) :
    (validReadings m = [] → detect_hole st m = ((true, "frente completo"), st)) ∧
    (validReadings m ≠ [] → meanOf (validReadings m) - b ≤ 300 →
      detect_hole st m = ((false, ""), st)) ∧
    (validReadings m ≠ [] → 300 < meanOf (validReadings m) - b →
      ((b + 300 < meanOf (leftPixels m) ∧ b + 300 < meanOf (centerPixels m) ∧
          b + 300 < meanOf (rightPixels m)) →
        detect_hole st m = ((true, "frente completo (caída total)"), st)) ∧
      (¬ (b + 300 < meanOf (leftPixels m) ∧ b + 300 < meanOf (centerPixels m) ∧
          b + 300 < meanOf (rightPixels m)) →
        (∀ pos, claimHoleZone (meanOf (leftPixels m)) (meanOf (centerPixels m))
            (meanOf (rightPixels m)) (b + 300) = some pos →
          detect_hole st m = ((true, pos), st)) ∧
        (claimHoleZone (meanOf (leftPixels m)) (meanOf (centerPixels m))
            (meanOf (rightPixels m)) (b + 300) = none →
          detect_hole st m = ((false, ""), st)))) := by
  obtain ⟨bf⟩ := st
  simp only at hst
  subst hst
  refine ⟨fun hv => ?_, fun hv hle => ?_,
    fun hv hgt => ⟨fun hall => ?_, fun hnall => ⟨fun pos hpos => ?_, fun hnone => ?_⟩⟩⟩
  · simp [detect_hole, hv]
  · simp only [detect_hole]
    rw [if_neg hv, if_neg (not_lt.mpr hle)]
  · simp only [detect_hole]
    rw [if_neg hv, if_pos hgt, if_pos hall]
  · simp only [detect_hole]
    rw [if_neg hv, if_pos hgt, if_neg hnall, pyMaxKey_zones, hpos]
  · simp only [detect_hole]
    rw [if_neg hv, if_pos hgt, if_neg hnall, pyMaxKey_zones, hnone]

/-- Counterexample to C3 as stated: on `singleDeepCell` (one valid 5000 mm
reading at row 0 column 0, every other cell invalid) with baseline 4000 mm,
the mean of the valid cells exceeds the baseline by 1000 mm > 300 mm, yet no
third's sentinel-filled average exceeds 4300 mm, so the code reports no hole —
the claim's "a drop is detected" does not hold. -/
theorem detect_hole_claim_counterexample :
    300 < meanOf (validReadings singleDeepCell) - 4000 ∧
    detect_hole ⟨some 4000⟩ singleDeepCell = ((false, ""), ⟨some 4000⟩) := by
  have hv : validReadings singleDeepCell = [5000] := by decide
  have hL : leftPixels singleDeepCell = [5000, 4000, 4000, 4000, 4000, 4000] := by
    decide
  have hC : centerPixels singleDeepCell = [4000, 4000, 4000, 4000] := by decide
  have hR : rightPixels singleDeepCell = [4000, 4000, 4000, 4000, 4000, 4000] := by
    decide
  have hmean : meanOf (validReadings singleDeepCell) = 5000 := by
    rw [hv]
    norm_num [meanOf]
  have hmL : meanOf (leftPixels singleDeepCell) = 12500/3 := by
    rw [hL]
    norm_num [meanOf]
  have hmC : meanOf (centerPixels singleDeepCell) = 4000 := by
    rw [hC]
    norm_num [meanOf]
  have hmR : meanOf (rightPixels singleDeepCell) = 4000 := by
    rw [hR]
    norm_num [meanOf]
  refine ⟨by rw [hmean]; norm_num, ?_⟩
  simp only [detect_hole]
  rw [if_neg (by rw [hv]; exact List.cons_ne_nil _ _),
    if_pos (by rw [hmean]; norm_num),
    if_neg (by rw [hmL]; norm_num),
    pyMaxKey_zones, hmL, hmC, hmR]
  norm_num [claimHoleZone]

/-- Witness for C3: on `centerHoleMatrix` with baseline 1000 mm the mean drop
is 437.5 mm > 300 mm, only the center third exceeds 1300 mm, and the hole is
reported in the center. -/
theorem detect_hole_spec_witness :
    detect_hole ⟨some 1000⟩ centerHoleMatrix = ((true, "medio"), ⟨some 1000⟩) := by
  have hv : validReadings centerHoleMatrix =
      [1250, 1250, 1250, 2000, 2000, 1250, 1250, 1250,
       1250, 1250, 1250, 2000, 2000, 1250, 1250, 1250] := by decide
  have hL : leftPixels centerHoleMatrix = [1250, 1250, 1250, 1250, 1250, 1250] := by
    decide
  have hC : centerPixels centerHoleMatrix = [2000, 2000, 2000, 2000] := by decide
  have hR : rightPixels centerHoleMatrix = [1250, 1250, 1250, 1250, 1250, 1250] := by
    decide
  have hmean : meanOf (validReadings centerHoleMatrix) = 2875/2 := by
    rw [hv]
    norm_num [meanOf]
  have hmL : meanOf (leftPixels centerHoleMatrix) = 1250 := by
    rw [hL]
    norm_num [meanOf]
  have hmC : meanOf (centerPixels centerHoleMatrix) = 2000 := by
    rw [hC]
    norm_num [meanOf]
  have hmR : meanOf (rightPixels centerHoleMatrix) = 1250 := by
    rw [hR]
    norm_num [meanOf]
  have h := (detect_hole_spec centerHoleMatrix 1000 ⟨some 1000⟩ rfl).2.2
    (by rw [hv]; exact List.cons_ne_nil _ _)
    (by rw [hmean]; norm_num)
  refine (h.2 ?_).1 "medio" ?_
  · rw [hmL, hmC, hmR]
    norm_num
  · rw [hmL, hmC, hmR]
    norm_num [claimHoleZone]

end Proyecto
